import Mathlib

/-!
Verification development for the asteroid impact simulation pipeline.

The definitions below are a shallow embedding of the physics and damage
pipeline of the repository: the pydantic data models (app/models/asteroid.py,
app/models/impact.py), the impact calculator
(app/physics/impact_calculator.py), the damage assessor
(app/physics/damage_assessor.py), the heuristic damage enhancer
(app/ml/enhancer.py), and the mitigation and impact-zone logic of the
simulate endpoint (app/api/v1/endpoints/simulation.py).

Python float arithmetic is embedded as real arithmetic.  Operations that
raise in Python on the relevant domain (float division by zero, math.log10
of a non-positive number) are embedded as Option-valued checked operations,
and pydantic model construction, which raises a ValidationError when a field
constraint fails, is embedded as an Option-valued constructor.
-/

namespace Meteor

noncomputable section

open Real

/-- TerrainType enum from app/models/impact.py. -/
inductive TerrainType where
  | ocean | land | urban | rural | mountain | desert | forest | ice
deriving DecidableEq, Repr

/-- AsteroidComposition enum from app/models/asteroid.py. -/
inductive AsteroidComposition where
  | iron | stony | carbonaceous | mixed
deriving DecidableEq, Repr

/-- Validated Asteroid value (app/models/asteroid.py).  The density field
holds the value after the set_density validator has defaulted it from the
composition, so it is a plain real here. -/
structure Asteroid where
  mass : ℝ
  diameter : ℝ
  velocity : ℝ
  impact_angle : ℝ
  composition : AsteroidComposition
  density : ℝ
  porosity : ℝ
  strength : Option ℝ

/-- Validated ImpactLocation value (app/models/impact.py). -/
structure ImpactLocation where
  latitude : ℝ
  longitude : ℝ
  elevation : ℝ
  terrain_type : TerrainType
  water_depth : Option ℝ
  population_density : ℝ
  infrastructure_density : ℝ
  soil_type : Option String
  bedrock_depth : Option ℝ

/-- Field constraints of the Asteroid pydantic model: mass, diameter and
velocity are gt 0, impact_angle is in [0, 90], density (after defaulting)
is gt 0, porosity in [0, 1], strength gt 0 when provided. -/
def Asteroid.Valid (a : Asteroid) : Prop :=
  0 < a.mass ∧ 0 < a.diameter ∧ 0 < a.velocity ∧
    0 ≤ a.impact_angle ∧ a.impact_angle ≤ 90 ∧ 0 < a.density ∧
    0 ≤ a.porosity ∧ a.porosity ≤ 1 ∧ ∀ s ∈ a.strength, 0 < s

/-- Field constraints of the ImpactLocation pydantic model. -/
def ImpactLocation.Valid (l : ImpactLocation) : Prop :=
  -90 ≤ l.latitude ∧ l.latitude ≤ 90 ∧ -180 ≤ l.longitude ∧ l.longitude ≤ 180 ∧
    (∀ w ∈ l.water_depth, 0 ≤ w) ∧ 0 ≤ l.population_density ∧
    0 ≤ l.infrastructure_density ∧ l.infrastructure_density ≤ 1 ∧
    ∀ b ∈ l.bedrock_depth, 0 ≤ b

/-- Default densities of the set_density validator in
app/models/asteroid.py (also the material property table of the impact
calculator). -/
def defaultDensity : AsteroidComposition → ℝ
  | .iron => 7800
  | .stony => 3000
  | .carbonaceous => 2000
  | .mixed => 4000

/-- set_density validator: defaults a missing density from the composition. -/
def set_density (v : Option ℝ) (c : AsteroidComposition) : ℝ :=
  match v with
  | none => defaultDensity c
  | some d => d

/-- validate_diameter validator of app/models/asteroid.py.  The consistency
check only runs when both mass and density are truthy (Python `if mass and
density`), and rejects when the diameter is more than 10 percent away from
the value implied by mass and density. -/
def validate_diameter (v : ℝ) (mass : Option ℝ) (density : Option ℝ) : Option ℝ :=
  match mass, density with
  | some m, some d =>
      if m = 0 ∨ d = 0 then some v
      else
        let expected := 2 * ((3 * m) / (4 * Real.pi * d)) ^ ((1:ℝ)/3)
        if |v - expected| / expected > 0.1 then none else some v
  | _, _ => some v

/-- Construction of an Asteroid through the pydantic model.  Fields are
validated in declaration order (mass, diameter, velocity, impact_angle,
composition, density, porosity, strength).  When the diameter field is
validated, only mass has been processed, so values.get("density") is None
at that point: the validate_diameter call below therefore receives none
for the density argument, exactly as in the source, where the density
field comes after diameter in the model. -/
def mkAsteroid (mass diameter velocity impact_angle : ℝ)
    (composition : AsteroidComposition)
    (density : Option ℝ) (porosity : Option ℝ) (strength : Option ℝ) :
    Option Asteroid :=
  if 0 < mass ∧ 0 < diameter ∧ 0 < velocity ∧
      0 ≤ impact_angle ∧ impact_angle ≤ 90 ∧
      (∀ d ∈ density, 0 < d) ∧ (∀ p ∈ porosity, 0 ≤ p ∧ p ≤ 1) ∧
      (∀ s ∈ strength, 0 < s) then
    match validate_diameter diameter (some mass) none with
    | none => none
    | some dia =>
        some { mass := mass, diameter := dia, velocity := velocity,
               impact_angle := impact_angle, composition := composition,
               density := set_density density composition,
               porosity := porosity.getD 0, strength := strength }
  else none

/-- Kinetic energy property of the Asteroid model (Joules). -/
def Asteroid.kinetic_energy (a : Asteroid) : ℝ :=
  0.5 * a.mass * a.velocity ^ 2

/-- Kinetic energy in megatons of TNT, from the Asteroid model. -/
def Asteroid.kinetic_energy_megatons (a : Asteroid) : ℝ :=
  a.kinetic_energy / 4.184e15

/-- ImpactCalculator.calculate_kinetic_energy. -/
def calculate_kinetic_energy (a : Asteroid) : ℝ :=
  0.5 * a.mass * a.velocity ^ 2

/-- Python float division, which raises ZeroDivisionError on a zero
denominator. -/
def checkedDiv (x y : ℝ) : Option ℝ :=
  if y = 0 then none else some (x / y)

/-- math.log10, which raises ValueError on a non-positive argument. -/
def checkedLog10 (x : ℝ) : Option ℝ :=
  if 0 < x then some (Real.log x / Real.log 10) else none

/-- Output of ImpactCalculator.calculate_atmospheric_entry_effects. -/
structure AtmosphericEffects where
  drag_force : ℝ
  deceleration : ℝ
  energy_lost : ℝ
  atmospheric_density : ℝ

/-- ImpactCalculator.calculate_atmospheric_entry_effects. -/
def calculate_atmospheric_entry_effects (a : Asteroid) (altitude : ℝ) :
    AtmosphericEffects :=
  let rho_atm := 1.225 * Real.exp (-altitude / 8000)
  let cross_sectional_area := Real.pi * (a.diameter / 2) ^ 2
  let drag_force := 0.5 * rho_atm * a.velocity ^ 2 * 0.47 * cross_sectional_area
  { drag_force := drag_force
    deceleration := drag_force / a.mass
    energy_lost := drag_force * altitude
    atmospheric_density := rho_atm }

/-- Output of ImpactCalculator.calculate_crater_formation. -/
structure CraterData where
  crater_diameter : ℝ
  crater_depth : ℝ
  crater_volume : ℝ

/-- ImpactCalculator.calculate_crater_formation.  The material property
lookup in the source is dead code (the result is never used), so it is
omitted.  The crater volume is computed from the pre-adjustment diameter
and depth; the ocean adjustment then scales only diameter and depth, as in
the source. -/
def calculate_crater_formation (a : Asteroid) (loc : ImpactLocation) :
    CraterData :=
  let ke_mt := calculate_kinetic_energy a / 4.184e15
  let target_density : ℝ := 2700
  let impact_angle_rad := a.impact_angle * Real.pi / 180
  let crater_diameter :=
    1.25 * (ke_mt * 4.184e15 / target_density) ^ ((1:ℝ)/3) *
      Real.sin impact_angle_rad ^ ((1:ℝ)/3)
  let crater_depth := crater_diameter / 5.0
  let crater_volume := (Real.pi / 6) * crater_diameter ^ 2 * crater_depth
  if loc.terrain_type = TerrainType.ocean then
    { crater_diameter := crater_diameter * 1.2
      crater_depth := crater_depth * 0.8
      crater_volume := crater_volume }
  else
    { crater_diameter := crater_diameter
      crater_depth := crater_depth
      crater_volume := crater_volume }

/-- Output of ImpactCalculator.calculate_blast_effects. -/
structure BlastData where
  blast_radius : ℝ
  thermal_radius : ℝ
  fireball_radius : ℝ
  seismic_magnitude : ℝ

/-- ImpactCalculator.calculate_blast_effects.  The crater_diameter
parameter is part of the source signature but unused by the body.  The
seismic magnitude evaluates math.log10, which fails on non-positive
energy, hence the Option result. -/
def calculate_blast_effects (a : Asteroid) (crater_diameter : ℝ) :
    Option BlastData :=
  let ke_mt := calculate_kinetic_energy a / 4.184e15
  let blast_radius := 1.0 * ke_mt ^ ((1:ℝ)/3) * 1000
  let thermal_radius := blast_radius * 1.5
  let fireball_radius := 0.1 * ke_mt ^ ((1:ℝ)/3) * 1000
  let _ := crater_diameter
  (checkedLog10 (ke_mt * 4.184e15)).map fun lg =>
    { blast_radius := blast_radius
      thermal_radius := thermal_radius
      fireball_radius := fireball_radius
      seismic_magnitude := 0.67 * lg + 4.4 }

/-- Output of ImpactCalculator.calculate_tsunami_effects. -/
structure TsunamiData where
  tsunami_height : ℝ
  tsunami_radius : ℝ

/-- Effective water depth: `location.water_depth or 1000` in Python, where
both None and 0.0 are falsy and fall back to the 1000 m default. -/
def waterDepthOrDefault (w : Option ℝ) : ℝ :=
  match w with
  | none => 1000
  | some d => if d = 0 then 1000 else d

/-- ImpactCalculator.calculate_tsunami_effects.  Non-ocean terrain returns
zero height and radius.  For ocean terrain the source divides water_depth
by crater_diameter, a float division that raises when the crater diameter
is zero, hence the checked division. -/
def calculate_tsunami_effects (a : Asteroid) (loc : ImpactLocation)
    (crater_diameter : ℝ) : Option TsunamiData :=
  if loc.terrain_type ≠ TerrainType.ocean then
    some { tsunami_height := 0, tsunami_radius := 0 }
  else
    let ke_mt := calculate_kinetic_energy a / 4.184e15
    let water_depth := waterDepthOrDefault loc.water_depth
    (checkedDiv water_depth crater_diameter).map fun q =>
      { tsunami_height := 0.5 * (ke_mt * 4.184e15 / 1000) ^ ((1:ℝ)/4) * q ^ ((1:ℝ)/2)
        tsunami_radius := 1000 * ke_mt ^ ((1:ℝ)/3) }

/-- ImpactCalculator.calculate_evacuation_radius. -/
def calculate_evacuation_radius (blast_radius thermal_radius seismic_magnitude : ℝ) : ℝ :=
  let e0 := max blast_radius thermal_radius
  let e1 := if seismic_magnitude > 6.0 then e0 * 1.5 else e0
  e1 * 1.2

/-- The dictionary returned by ImpactCalculator.calculate_impact_result. -/
structure ImpactResultData where
  crater_diameter : ℝ
  crater_depth : ℝ
  crater_volume : ℝ
  blast_radius : ℝ
  thermal_radius : ℝ
  seismic_magnitude : ℝ
  tsunami_height : ℝ
  fireball_radius : ℝ
  evacuation_radius : ℝ
  affected_area : ℝ
  atmospheric_effects : AtmosphericEffects

/-- ImpactCalculator.calculate_impact_result: sequences atmospheric entry,
crater formation, blast effects, tsunami effects and the evacuation radius
rule, and assembles the result dictionary.  A failing stage (the only
reachable failures are the log10 and the tsunami division) propagates as
none. -/
def calculate_impact_result (a : Asteroid) (loc : ImpactLocation) :
    Option ImpactResultData :=
  let entry_effects := calculate_atmospheric_entry_effects a 100000
  let crater_data := calculate_crater_formation a loc
  match calculate_blast_effects a crater_data.crater_diameter with
  | none => none
  | some blast_data =>
    match calculate_tsunami_effects a loc crater_data.crater_diameter with
    | none => none
    | some tsunami_data =>
      let evacuation_radius :=
        calculate_evacuation_radius blast_data.blast_radius
          blast_data.thermal_radius blast_data.seismic_magnitude
      some { crater_diameter := crater_data.crater_diameter
             crater_depth := crater_data.crater_depth
             crater_volume := crater_data.crater_volume
             blast_radius := blast_data.blast_radius
             thermal_radius := blast_data.thermal_radius
             seismic_magnitude := blast_data.seismic_magnitude
             tsunami_height := tsunami_data.tsunami_height
             fireball_radius := blast_data.fireball_radius
             evacuation_radius := evacuation_radius
             affected_area := Real.pi * (evacuation_radius / 1000) ^ 2
             atmospheric_effects := entry_effects }

/-- Python int() truncation toward zero, on a real value. -/
def pyInt (x : ℝ) : ℤ :=
  if 0 ≤ x then ⌊x⌋ else -⌊-x⌋

/-- DamageAssessor casualty_scaling table.  The Python dict has no entry
for the land terrain, so dict.get falls back to the 0.5 default there. -/
def casualtyScaling : TerrainType → ℝ
  | .urban => 1.0
  | .rural => 0.3
  | .mountain => 0.1
  | .desert => 0.05
  | .forest => 0.2
  | .ice => 0.1
  | .ocean => 0.0
  | .land => 0.5

/-- DamageAssessor infrastructure_scaling table; land falls back to the
0.5 default of dict.get. -/
def infrastructureScaling : TerrainType → ℝ
  | .urban => 1.0
  | .rural => 0.4
  | .mountain => 0.2
  | .desert => 0.1
  | .forest => 0.3
  | .ice => 0.1
  | .ocean => 0.0
  | .land => 0.5

/-- DamageAssessor terrain_impact table for the environmental stage; land
falls back to the 1.0 default of dict.get. -/
def environmentalScaling : TerrainType → ℝ
  | .urban => 0.8
  | .rural => 1.0
  | .mountain => 1.2
  | .desert => 0.6
  | .forest => 1.5
  | .ice => 2.0
  | .ocean => 1.0
  | .land => 1.0

/-- Output of DamageAssessor.calculate_human_casualties. -/
structure HumanDamage where
  estimated_casualties : ℤ
  injured_count : ℤ
  displaced_count : ℤ

/-- DamageAssessor.calculate_human_casualties. -/
def calculate_human_casualties (ir : ImpactResultData) (loc : ImpactLocation) :
    HumanDamage :=
  let blast_radius_km := ir.blast_radius / 1000
  let population_in_blast := loc.population_density * Real.pi * blast_radius_km ^ 2
  let thermal_radius_km := ir.thermal_radius / 1000
  let population_in_thermal := loc.population_density * Real.pi * thermal_radius_km ^ 2
  let blast_casualties := pyInt (population_in_blast * 0.9)
  let thermal_casualties := pyInt ((population_in_thermal - population_in_blast) * 0.3)
  let total_casualties := blast_casualties + thermal_casualties
  let terrain_factor := casualtyScaling loc.terrain_type
  let total_casualties := pyInt ((total_casualties : ℝ) * terrain_factor)
  { estimated_casualties := total_casualties
    injured_count := total_casualties * 3
    displaced_count := total_casualties * 10 }

/-- Output of DamageAssessor.calculate_infrastructure_damage. -/
structure InfrastructureDamage where
  infrastructure_damage_cost : ℤ
  buildings_destroyed : ℤ
  buildings_damaged : ℤ

/-- DamageAssessor.calculate_infrastructure_damage. -/
def calculate_infrastructure_damage (ir : ImpactResultData) (loc : ImpactLocation) :
    InfrastructureDamage :=
  let affected_area := ir.affected_area
  let terrain_factor := infrastructureScaling loc.terrain_type
  let infrastructure_density := loc.infrastructure_density * terrain_factor
  let buildings_affected := pyInt (affected_area * 1000 * infrastructure_density)
  let buildings_destroyed := pyInt ((buildings_affected : ℝ) * 0.3)
  let buildings_damaged := pyInt ((buildings_affected : ℝ) * 0.7)
  { infrastructure_damage_cost := buildings_destroyed * 500000 + buildings_damaged * 100000
    buildings_destroyed := buildings_destroyed
    buildings_damaged := buildings_damaged }

/-- Output of DamageAssessor.calculate_environmental_impact. -/
structure EnvironmentalImpact where
  environmental_impact_score : ℝ
  ecosystem_affected_area : ℝ
  dust_cloud_radius : ℝ
  temperature_drop : ℝ
  precipitation_change : ℝ

/-- DamageAssessor.calculate_environmental_impact.  The base score is
min(10, seismic_magnitude - 4) with no lower clamp; the terrain-scaled
score is clamped again from above by 10 only. -/
def calculate_environmental_impact (ir : ImpactResultData) (loc : ImpactLocation) :
    EnvironmentalImpact :=
  let base_score := min 10.0 (ir.seismic_magnitude - 4.0)
  let terrain_factor := environmentalScaling loc.terrain_type
  let environmental_impact_score := base_score * terrain_factor
  { environmental_impact_score := min 10.0 environmental_impact_score
    ecosystem_affected_area := ir.affected_area * 1.5
    dust_cloud_radius := ir.affected_area * 10
    temperature_drop := min 5.0 (ir.seismic_magnitude - 4.0)
    precipitation_change := 0.1 * (ir.seismic_magnitude - 4.0) }

/-- Output of DamageAssessor.calculate_economic_impact. -/
structure EconomicImpact where
  total_economic_cost : ℝ
  recovery_time_years : ℝ
  casualty_cost : ℝ
  injury_cost : ℝ
  displacement_cost : ℝ
  infrastructure_cost : ℝ
  environmental_cost : ℝ

/-- DamageAssessor.calculate_economic_impact, with the cost factors of the
economic_factors table inlined. -/
def calculate_economic_impact (human : HumanDamage)
    (infra : InfrastructureDamage) (env : EnvironmentalImpact) :
    EconomicImpact :=
  let casualty_cost := (human.estimated_casualties : ℝ) * 1000000
  let injury_cost := (human.injured_count : ℝ) * 100000
  let displacement_cost := (human.displaced_count : ℝ) * 50000
  let infrastructure_cost := (infra.infrastructure_damage_cost : ℝ)
  let environmental_cost := env.environmental_impact_score * 1e9
  { total_economic_cost :=
      casualty_cost + injury_cost + displacement_cost +
        infrastructure_cost + environmental_cost
    recovery_time_years := min 50.0 (env.environmental_impact_score * 5.0)
    casualty_cost := casualty_cost
    injury_cost := injury_cost
    displacement_cost := displacement_cost
    infrastructure_cost := infrastructure_cost
    environmental_cost := environmental_cost }

/-- The merged dictionary returned by DamageAssessor.assess_damage. -/
structure DamageData where
  estimated_casualties : ℤ
  injured_count : ℤ
  displaced_count : ℤ
  infrastructure_damage_cost : ℤ
  buildings_destroyed : ℤ
  buildings_damaged : ℤ
  environmental_impact_score : ℝ
  ecosystem_affected_area : ℝ
  dust_cloud_radius : ℝ
  temperature_drop : ℝ
  precipitation_change : ℝ
  total_economic_cost : ℝ
  recovery_time_years : ℝ
  casualty_cost : ℝ
  injury_cost : ℝ
  displacement_cost : ℝ
  infrastructure_cost : ℝ
  environmental_cost : ℝ

/-- DamageAssessor.assess_damage.  The asteroid argument is part of the
source signature but is never read by the body, which only consumes the
impact result and the location. -/
def assess_damage (asteroid : Asteroid) (loc : ImpactLocation)
    (ir : ImpactResultData) : DamageData :=
  let _ := asteroid
  let human := calculate_human_casualties ir loc
  let infra := calculate_infrastructure_damage ir loc
  let env := calculate_environmental_impact ir loc
  let econ := calculate_economic_impact human infra env
  { estimated_casualties := human.estimated_casualties
    injured_count := human.injured_count
    displaced_count := human.displaced_count
    infrastructure_damage_cost := infra.infrastructure_damage_cost
    buildings_destroyed := infra.buildings_destroyed
    buildings_damaged := infra.buildings_damaged
    environmental_impact_score := env.environmental_impact_score
    ecosystem_affected_area := env.ecosystem_affected_area
    dust_cloud_radius := env.dust_cloud_radius
    temperature_drop := env.temperature_drop
    precipitation_change := env.precipitation_change
    total_economic_cost := econ.total_economic_cost
    recovery_time_years := econ.recovery_time_years
    casualty_cost := econ.casualty_cost
    injury_cost := econ.injury_cost
    displacement_cost := econ.displacement_cost
    infrastructure_cost := econ.infrastructure_cost
    environmental_cost := econ.environmental_cost }

/-- The DamageAssessment pydantic model of app/models/impact.py: the ten
declared fields with their range constraints. -/
structure DamageAssessment where
  estimated_casualties : ℤ
  injured_count : ℤ
  displaced_count : ℤ
  infrastructure_damage_cost : ℝ
  buildings_destroyed : ℤ
  buildings_damaged : ℤ
  environmental_impact_score : ℝ
  ecosystem_affected_area : ℝ
  total_economic_cost : ℝ
  recovery_time_years : ℝ

/-- Construction of DamageAssessment(**damage_data) in the simulate
endpoint: pydantic checks the ge/le constraints of the ten model fields
(extra dictionary keys are ignored) and raises on any violation. -/
def mkDamageAssessment (d : DamageData) : Option DamageAssessment :=
  if 0 ≤ d.estimated_casualties ∧ 0 ≤ d.injured_count ∧ 0 ≤ d.displaced_count ∧
      0 ≤ d.infrastructure_damage_cost ∧ 0 ≤ d.buildings_destroyed ∧
      0 ≤ d.buildings_damaged ∧
      (0 ≤ d.environmental_impact_score ∧ d.environmental_impact_score ≤ 10) ∧
      0 ≤ d.ecosystem_affected_area ∧ 0 ≤ d.total_economic_cost ∧
      0 ≤ d.recovery_time_years then
    some { estimated_casualties := d.estimated_casualties
           injured_count := d.injured_count
           displaced_count := d.displaced_count
           infrastructure_damage_cost := (d.infrastructure_damage_cost : ℝ)
           buildings_destroyed := d.buildings_destroyed
           buildings_damaged := d.buildings_damaged
           environmental_impact_score := d.environmental_impact_score
           ecosystem_affected_area := d.ecosystem_affected_area
           total_economic_cost := d.total_economic_cost
           recovery_time_years := d.recovery_time_years }
  else none

/-- DamageMLEnhancer.enhance of app/ml/enhancer.py, with the features
dictionary passed as its three entries (energy_megatons, terrain_type,
population_density).  Adjustments are applied in source order: injuries,
then casualties (urban only, clamped below by 0), then displacement, then
the economic total is recomputed from the adjusted human counts plus the
original infrastructure cost and environmental score. -/
def enhance (energy_megatons : ℝ) (terrain : TerrainType)
    (population_density : ℝ) (damage : DamageData) : DamageData :=
  let injury_multiplier := 1.0 + min 1.0 (population_density / 20000.0)
  let injured := pyInt ((damage.injured_count : ℝ) * injury_multiplier)
  let casualties :=
    if terrain = TerrainType.urban then
      max 0 (pyInt ((damage.estimated_casualties : ℝ) * 0.9))
    else damage.estimated_casualties
  let displaced :=
    if energy_megatons > 100 then pyInt ((damage.displaced_count : ℝ) * 1.25)
    else damage.displaced_count
  let human_delta := casualties * 1000000 + injured * 100000 + displaced * 50000
  { damage with
      injured_count := injured
      estimated_casualties := casualties
      displaced_count := displaced
      total_economic_cost :=
        (human_delta : ℝ) + (damage.infrastructure_damage_cost : ℝ) +
          damage.environmental_impact_score * 1e9 }

/-- ImpactZone value of app/models/impact.py (the description string is
omitted; it is display-only interpolation of the numeric fields). -/
structure ImpactZone where
  zone_type : String
  radius : ℝ
  intensity : ℝ
  affected_population : ℤ

/-- The _calculate_impact_zones helper of the simulate endpoint: an
optional tsunami zone (ocean terrain with tsunami height above 1 m),
then the seismic, thermal and blast zones, in that order. -/
def calculate_impact_zones (loc : ImpactLocation) (ir : ImpactResultData) :
    List ImpactZone :=
  let tsunami_zones :=
    if loc.terrain_type = TerrainType.ocean ∧ ir.tsunami_height > 1 then
      let tsunami_radius := ir.tsunami_height * 1000
      [{ zone_type := "tsunami"
         radius := tsunami_radius
         intensity := min 10 ir.tsunami_height
         affected_population := pyInt (tsunami_radius * 0.001 * loc.population_density) }]
    else []
  tsunami_zones ++
    [{ zone_type := "seismic"
       radius := ir.blast_radius * 2
       intensity := min 10 ir.seismic_magnitude
       affected_population := pyInt (ir.blast_radius * 2 * 0.001 * loc.population_density) },
     { zone_type := "thermal"
       radius := ir.thermal_radius
       intensity := 8.0
       affected_population := pyInt (ir.thermal_radius * 0.001 * loc.population_density) },
     { zone_type := "blast"
       radius := ir.blast_radius
       intensity := 10.0
       affected_population := pyInt (ir.blast_radius * 0.001 * loc.population_density) }]

/-- MitigationResult value (trajectory fields omitted; the endpoint leaves
them unset). -/
structure MitigationResult where
  dv_applied : ℝ
  success_probability : ℝ
  energy_reduction : ℝ

/-- The mitigation block of the simulate endpoint (simulation.py lines
72-97).  When dv_mps is positive, the endpoint rebuilds the asteroid
through AsteroidCreate with velocity max(0, velocity - dv_mps) and all
other fields copied; a pydantic ValidationError or a ZeroDivisionError in
the success-probability formula propagates as a failure of the request,
embedded here as none.  When dv_mps is not positive, the original asteroid
is used and no mitigation result is produced. -/
def apply_mitigation (ast : Asteroid) (dv_mps : ℝ) :
    Option (Asteroid × Option MitigationResult) :=
  if dv_mps > 0 then
    let adjusted_velocity := max 0 (ast.velocity - dv_mps)
    match mkAsteroid ast.mass ast.diameter adjusted_velocity ast.impact_angle
        ast.composition (some ast.density) (some ast.porosity) ast.strength with
    | none => none
    | some adjusted =>
      match checkedDiv dv_mps (adjusted.velocity * 0.1) with
      | none => none
      | some q =>
        let success_prob := min 1.0 q
        match checkedDiv (ast.kinetic_energy - adjusted.kinetic_energy)
            ast.kinetic_energy with
        | none => none
        | some fraction =>
          some (adjusted,
            some { dv_applied := dv_mps
                   success_probability := success_prob
                   energy_reduction := fraction * 100 })
  else some (ast, none)

/-! Closed-form descriptions of the stage outputs, used to state and prove
the pipeline lemmas. -/

/-- Blast radius formula of calculate_blast_effects. -/
def blastRadiusOf (a : Asteroid) : ℝ :=
  1.0 * (calculate_kinetic_energy a / 4.184e15) ^ ((1:ℝ)/3) * 1000

/-- Thermal radius formula of calculate_blast_effects. -/
def thermalRadiusOf (a : Asteroid) : ℝ :=
  blastRadiusOf a * 1.5

/-- Fireball radius formula of calculate_blast_effects. -/
def fireballRadiusOf (a : Asteroid) : ℝ :=
  0.1 * (calculate_kinetic_energy a / 4.184e15) ^ ((1:ℝ)/3) * 1000

/-- Seismic magnitude formula of calculate_blast_effects. -/
def seismicMagnitudeOf (a : Asteroid) : ℝ :=
  0.67 * (Real.log (calculate_kinetic_energy a) / Real.log 10) + 4.4

/-- Crater diameter produced by calculate_crater_formation. -/
def craterD (a : Asteroid) (loc : ImpactLocation) : ℝ :=
  (calculate_crater_formation a loc).crater_diameter

/-- Pre-adjustment crater diameter formula. -/
def baseCrater (a : Asteroid) : ℝ :=
  1.25 * (calculate_kinetic_energy a / 2700) ^ ((1:ℝ)/3) *
    Real.sin (a.impact_angle * Real.pi / 180) ^ ((1:ℝ)/3)

/-- Tsunami height formula for ocean impacts. -/
def tsunamiHeightOf (a : Asteroid) (loc : ImpactLocation) : ℝ :=
  0.5 * (calculate_kinetic_energy a / 1000) ^ ((1:ℝ)/4) *
    (waterDepthOrDefault loc.water_depth / craterD a loc) ^ ((1:ℝ)/2)

/-- Evacuation radius of the pipeline in terms of the blast formulas. -/
def evacOf (a : Asteroid) : ℝ :=
  calculate_evacuation_radius (blastRadiusOf a) (thermalRadiusOf a)
    (seismicMagnitudeOf a)

theorem keMt_mul (a : Asteroid) :
    calculate_kinetic_energy a / 4.184e15 * 4.184e15 = calculate_kinetic_energy a :=
  div_mul_cancel₀ _ (by norm_num)

theorem ke_pos (a : Asteroid) (ha : a.Valid) : 0 < calculate_kinetic_energy a := by
  obtain ⟨hm, -, hv, -⟩ := ha
  unfold calculate_kinetic_energy
  positivity

theorem sin_angle_nonneg (θ : ℝ) (h0 : 0 ≤ θ) (h90 : θ ≤ 90) :
    0 ≤ Real.sin (θ * Real.pi / 180) := by
  apply Real.sin_nonneg_of_nonneg_of_le_pi
  · positivity
  · have hπ := Real.pi_pos
    nlinarith

theorem sin_angle_pos (θ : ℝ) (h0 : 0 < θ) (h90 : θ ≤ 90) :
    0 < Real.sin (θ * Real.pi / 180) := by
  apply Real.sin_pos_of_pos_of_lt_pi
  · positivity
  · have hπ := Real.pi_pos
    nlinarith

theorem craterD_eq (a : Asteroid) (loc : ImpactLocation) :
    craterD a loc =
      if loc.terrain_type = TerrainType.ocean then baseCrater a * 1.2
      else baseCrater a := by
  have hcancel : calculate_kinetic_energy a / 4.184e15 * 4.184e15 / 2700 =
      calculate_kinetic_energy a / 2700 := by
    rw [keMt_mul]
  unfold craterD calculate_crater_formation baseCrater
  by_cases ho : loc.terrain_type = TerrainType.ocean
  · simp only [ho, if_pos, hcancel]
  · simp only [ho, if_neg, hcancel, ite_false]

theorem baseCrater_pos (a : Asteroid) (ha : a.Valid) (hang : 0 < a.impact_angle) :
    0 < baseCrater a := by
  have hE := ke_pos a ha
  have hsin := sin_angle_pos a.impact_angle hang ha.2.2.2.2.1
  unfold baseCrater
  have h1 : (0:ℝ) < (calculate_kinetic_energy a / 2700) ^ ((1:ℝ)/3) :=
    Real.rpow_pos_of_pos (by positivity) _
  have h2 : (0:ℝ) < Real.sin (a.impact_angle * Real.pi / 180) ^ ((1:ℝ)/3) :=
    Real.rpow_pos_of_pos hsin _
  positivity

theorem craterD_pos (a : Asteroid) (loc : ImpactLocation) (ha : a.Valid)
    (hang : 0 < a.impact_angle) : 0 < craterD a loc := by
  rw [craterD_eq]
  have := baseCrater_pos a ha hang
  by_cases ho : loc.terrain_type = TerrainType.ocean
  · rw [if_pos ho]; linarith
  · rw [if_neg ho]; exact this

theorem baseCrater_zero_angle (a : Asteroid) (h : a.impact_angle = 0) :
    baseCrater a = 0 := by
  unfold baseCrater
  rw [h]
  rw [zero_mul, zero_div, Real.sin_zero, Real.zero_rpow (by norm_num), mul_zero]

theorem craterD_zero_angle (a : Asteroid) (loc : ImpactLocation)
    (h : a.impact_angle = 0) : craterD a loc = 0 := by
  rw [craterD_eq, baseCrater_zero_angle a h]
  by_cases ho : loc.terrain_type = TerrainType.ocean <;> simp [ho]

theorem calculate_blast_effects_eq (a : Asteroid) (cd : ℝ)
    (hE : 0 < calculate_kinetic_energy a) :
    calculate_blast_effects a cd = some
      { blast_radius := blastRadiusOf a
        thermal_radius := thermalRadiusOf a
        fireball_radius := fireballRadiusOf a
        seismic_magnitude := seismicMagnitudeOf a } := by
  simp only [calculate_blast_effects, checkedLog10]
  rw [keMt_mul, if_pos hE]
  unfold blastRadiusOf thermalRadiusOf fireballRadiusOf seismicMagnitudeOf
  rfl

theorem calculate_tsunami_effects_nonocean (a : Asteroid) (loc : ImpactLocation)
    (cd : ℝ) (h : loc.terrain_type ≠ TerrainType.ocean) :
    calculate_tsunami_effects a loc cd =
      some { tsunami_height := 0, tsunami_radius := 0 } := by
  unfold calculate_tsunami_effects
  rw [if_pos h]

theorem calculate_tsunami_effects_ocean (a : Asteroid) (loc : ImpactLocation)
    (cd : ℝ) (h : loc.terrain_type = TerrainType.ocean) (hcd : cd ≠ 0) :
    calculate_tsunami_effects a loc cd = some
      { tsunami_height := 0.5 * (calculate_kinetic_energy a / 1000) ^ ((1:ℝ)/4) *
          (waterDepthOrDefault loc.water_depth / cd) ^ ((1:ℝ)/2)
        tsunami_radius := 1000 * (calculate_kinetic_energy a / 4.184e15) ^ ((1:ℝ)/3) } := by
  simp only [calculate_tsunami_effects, checkedDiv]
  rw [if_neg (by simp [h]), if_neg hcd]
  simp only [Option.map_some']
  rw [keMt_mul]

theorem calculate_tsunami_effects_ocean_zero (a : Asteroid) (loc : ImpactLocation)
    (h : loc.terrain_type = TerrainType.ocean) :
    calculate_tsunami_effects a loc 0 = none := by
  simp only [calculate_tsunami_effects, checkedDiv]
  rw [if_neg (by simp [h])]
  simp

/-- Closed form of the record produced by a successful pipeline run. -/
def impactSpecRecord (a : Asteroid) (loc : ImpactLocation) : ImpactResultData :=
  { crater_diameter := craterD a loc
    crater_depth := (calculate_crater_formation a loc).crater_depth
    crater_volume := (calculate_crater_formation a loc).crater_volume
    blast_radius := blastRadiusOf a
    thermal_radius := thermalRadiusOf a
    seismic_magnitude := seismicMagnitudeOf a
    tsunami_height :=
      if loc.terrain_type = TerrainType.ocean then tsunamiHeightOf a loc else 0
    fireball_radius := fireballRadiusOf a
    evacuation_radius := evacOf a
    affected_area := Real.pi * (evacOf a / 1000) ^ 2
    atmospheric_effects := calculate_atmospheric_entry_effects a 100000 }

/-- Closed form of the full impact result, valid whenever the kinetic
energy is positive and, for ocean terrain, the crater diameter is nonzero. -/
theorem impact_result_eq (a : Asteroid) (loc : ImpactLocation)
    (hE : 0 < calculate_kinetic_energy a)
    (hcd : loc.terrain_type = TerrainType.ocean → craterD a loc ≠ 0) :
    calculate_impact_result a loc = some (impactSpecRecord a loc) := by
  unfold impactSpecRecord
  simp only [calculate_impact_result]
  rw [calculate_blast_effects_eq a _ hE]
  by_cases ho : loc.terrain_type = TerrainType.ocean
  · rw [calculate_tsunami_effects_ocean a loc
      (calculate_crater_formation a loc).crater_diameter ho (hcd ho), if_pos ho]
    rfl
  · rw [calculate_tsunami_effects_nonocean a loc _ ho, if_neg ho]
    rfl

/-- With ocean terrain and a zero crater diameter, the tsunami stage
divides by zero and the whole pipeline fails. -/
theorem impact_result_none_of_ocean_zero (a : Asteroid) (loc : ImpactLocation)
    (ho : loc.terrain_type = TerrainType.ocean) (hcd : craterD a loc = 0) :
    calculate_impact_result a loc = none := by
  have ht : calculate_tsunami_effects a loc
      (calculate_crater_formation a loc).crater_diameter = none := by
    have h0 : (calculate_crater_formation a loc).crater_diameter = 0 := hcd
    rw [h0]
    exact calculate_tsunami_effects_ocean_zero a loc ho
  simp only [calculate_impact_result]
  cases hb : calculate_blast_effects a (calculate_crater_formation a loc).crater_diameter with
  | none => rfl
  | some b => rw [ht]

theorem blastRadiusOf_nonneg (a : Asteroid) (hE : 0 ≤ calculate_kinetic_energy a) :
    0 ≤ blastRadiusOf a := by
  unfold blastRadiusOf
  have h := Real.rpow_nonneg
    (div_nonneg hE (by norm_num : (0:ℝ) ≤ 4.184e15)) ((1:ℝ)/3)
  nlinarith

theorem thermalRadiusOf_ge (a : Asteroid) (hE : 0 ≤ calculate_kinetic_energy a) :
    blastRadiusOf a ≤ thermalRadiusOf a := by
  have := blastRadiusOf_nonneg a hE
  unfold thermalRadiusOf
  nlinarith

theorem waterDepthOrDefault_pos (w : Option ℝ) (h : ∀ x ∈ w, 0 ≤ x) :
    0 < waterDepthOrDefault w := by
  cases w with
  | none => norm_num [waterDepthOrDefault]
  | some d =>
    simp only [waterDepthOrDefault]
    by_cases hd : d = 0
    · rw [if_pos hd]; norm_num
    · rw [if_neg hd]
      exact lt_of_le_of_ne (h d (by simp)) (Ne.symm hd)

theorem tsunamiHeightOf_pos (a : Asteroid) (loc : ImpactLocation)
    (ha : a.Valid) (hl : loc.Valid) (hang : 0 < a.impact_angle) :
    0 < tsunamiHeightOf a loc := by
  have hE := ke_pos a ha
  have hcd := craterD_pos a loc ha hang
  have hwd := waterDepthOrDefault_pos loc.water_depth hl.2.2.2.2.1
  unfold tsunamiHeightOf
  have h1 : (0:ℝ) < (calculate_kinetic_energy a / 1000) ^ ((1:ℝ)/4) :=
    Real.rpow_pos_of_pos (by positivity) _
  have h2 : (0:ℝ) < (waterDepthOrDefault loc.water_depth / craterD a loc) ^ ((1:ℝ)/2) :=
    Real.rpow_pos_of_pos (by positivity) _
  positivity

theorem blastRadiusOf_lt (a1 a2 : Asteroid)
    (h1 : 0 < calculate_kinetic_energy a1)
    (hlt : calculate_kinetic_energy a1 < calculate_kinetic_energy a2) :
    blastRadiusOf a1 < blastRadiusOf a2 := by
  unfold blastRadiusOf
  have h := Real.rpow_lt_rpow
    (le_of_lt (div_pos h1 (by norm_num : (0:ℝ) < 4.184e15)))
    ((div_lt_div_iff_of_pos_right (by norm_num : (0:ℝ) < 4.184e15)).mpr hlt)
    (by norm_num : (0:ℝ) < 1/3)
  nlinarith

theorem seismicMagnitudeOf_lt (a1 a2 : Asteroid)
    (h1 : 0 < calculate_kinetic_energy a1)
    (hlt : calculate_kinetic_energy a1 < calculate_kinetic_energy a2) :
    seismicMagnitudeOf a1 < seismicMagnitudeOf a2 := by
  unfold seismicMagnitudeOf
  have hlog := Real.log_lt_log h1 hlt
  have h10 : (0:ℝ) < Real.log 10 := Real.log_pos (by norm_num)
  have := (div_lt_div_iff_of_pos_right h10).mpr hlog
  nlinarith

theorem baseCrater_lt (a1 a2 : Asteroid)
    (hang : a1.impact_angle = a2.impact_angle)
    (h0 : 0 < a1.impact_angle) (h90 : a1.impact_angle ≤ 90)
    (h1 : 0 < calculate_kinetic_energy a1)
    (hlt : calculate_kinetic_energy a1 < calculate_kinetic_energy a2) :
    baseCrater a1 < baseCrater a2 := by
  unfold baseCrater
  rw [← hang]
  have hs : (0:ℝ) < Real.sin (a1.impact_angle * Real.pi / 180) ^ ((1:ℝ)/3) :=
    Real.rpow_pos_of_pos (sin_angle_pos a1.impact_angle h0 h90) _
  have h := Real.rpow_lt_rpow
    (le_of_lt (div_pos h1 (by norm_num : (0:ℝ) < 2700)))
    ((div_lt_div_iff_of_pos_right (by norm_num : (0:ℝ) < 2700)).mpr hlt)
    (by norm_num : (0:ℝ) < 1/3)
  nlinarith

theorem craterD_lt (a1 a2 : Asteroid) (loc : ImpactLocation)
    (hang : a1.impact_angle = a2.impact_angle)
    (h0 : 0 < a1.impact_angle) (h90 : a1.impact_angle ≤ 90)
    (h1 : 0 < calculate_kinetic_energy a1)
    (hlt : calculate_kinetic_energy a1 < calculate_kinetic_energy a2) :
    craterD a1 loc < craterD a2 loc := by
  rw [craterD_eq, craterD_eq]
  have := baseCrater_lt a1 a2 hang h0 h90 h1 hlt
  by_cases ho : loc.terrain_type = TerrainType.ocean
  · rw [if_pos ho, if_pos ho]; nlinarith
  · rw [if_neg ho, if_neg ho]; exact this

theorem pyInt_nonneg (x : ℝ) (h : 0 ≤ x) : 0 ≤ pyInt x := by
  unfold pyInt
  rw [if_pos h]
  exact Int.floor_nonneg.mpr h

theorem casualtyScaling_nonneg (t : TerrainType) : 0 ≤ casualtyScaling t := by
  cases t <;> norm_num [casualtyScaling]

theorem infrastructureScaling_nonneg (t : TerrainType) :
    0 ≤ infrastructureScaling t := by
  cases t <;> norm_num [infrastructureScaling]

/-- Equality of all fields except velocity. -/
def sameExceptVelocity (a1 a2 : Asteroid) : Prop :=
  a1.mass = a2.mass ∧ a1.diameter = a2.diameter ∧
    a1.impact_angle = a2.impact_angle ∧ a1.composition = a2.composition ∧
    a1.density = a2.density ∧ a1.porosity = a2.porosity ∧ a1.strength = a2.strength

/-- Equality of all fields except mass. -/
def sameExceptMass (a1 a2 : Asteroid) : Prop :=
  a1.velocity = a2.velocity ∧ a1.diameter = a2.diameter ∧
    a1.impact_angle = a2.impact_angle ∧ a1.composition = a2.composition ∧
    a1.density = a2.density ∧ a1.porosity = a2.porosity ∧ a1.strength = a2.strength

theorem not_mem_option_none {α : Type} {P : α → Prop} :
    ∀ x ∈ (none : Option α), P x := by
  intro x h
  exact absurd h (by simp)

/-! Claim theorems. -/

/-- C1 (counterexample): the pipeline is not total on the full valid
domain.  The asteroid with impact_angle = 0 is valid (the constraint is
0 ≤ angle ≤ 90), its crater diameter is sin(0)^(1/3) = 0, and for ocean
terrain the tsunami stage then evaluates water_depth / 0, a Python
ZeroDivisionError: compute_impact fails. -/
theorem C1_angle_zero_div_cex :
    Asteroid.Valid ⟨1, 1, 1, 0, .stony, 3000, 0, none⟩ ∧
    ImpactLocation.Valid ⟨0, 0, 0, .ocean, some 3000, 0, 0, none, none⟩ ∧
    calculate_impact_result ⟨1, 1, 1, 0, .stony, 3000, 0, none⟩
      ⟨0, 0, 0, .ocean, some 3000, 0, 0, none, none⟩ = none := by
  refine ⟨?_, ?_, ?_⟩
  · norm_num [Asteroid.Valid] <;> exact fun s h => absurd h (by simp)
  · norm_num [ImpactLocation.Valid] <;> exact fun s h => absurd h (by simp)
  · exact impact_result_none_of_ocean_zero _ _ rfl (craterD_zero_angle _ _ rfl)

/-- C1 (amended): for every valid asteroid with strictly positive impact
angle and every valid location, compute_impact is total: the log10
argument is positive, and the tsunami division (reached only for ocean
terrain) has a strictly positive crater diameter. -/
theorem C1_pipeline_total (a : Asteroid) (loc : ImpactLocation)
    (ha : a.Valid) (_hl : loc.Valid) (hang : 0 < a.impact_angle) :
    (calculate_impact_result a loc).isSome ∧
    (loc.terrain_type = TerrainType.ocean → 0 < craterD a loc) := by
  have hE := ke_pos a ha
  have hcd := craterD_pos a loc ha hang
  refine ⟨?_, fun _ => hcd⟩
  rw [impact_result_eq a loc hE fun _ => ne_of_gt hcd]
  rfl

/-- Witness for C1_pipeline_total at a concrete ocean impact. -/
theorem C1_pipeline_total_witness :
    (calculate_impact_result ⟨1, 1, 1, 45, .stony, 3000, 0, none⟩
        ⟨0, 0, 0, .ocean, some 3000, 100, 0.5, none, none⟩).isSome ∧
    ((⟨0, 0, 0, .ocean, some 3000, 100, 0.5, none, none⟩ : ImpactLocation).terrain_type
        = TerrainType.ocean →
      0 < craterD ⟨1, 1, 1, 45, .stony, 3000, 0, none⟩
        ⟨0, 0, 0, .ocean, some 3000, 100, 0.5, none, none⟩) :=
  C1_pipeline_total _ _ (by norm_num [Asteroid.Valid] <;> exact fun s h => absurd h (by simp))
    (by norm_num [ImpactLocation.Valid] <;> exact fun s h => absurd h (by simp)) (by norm_num)

/-- C4 (counterexample): two valid asteroids identical except for a
strictly larger velocity, both with impact_angle = 0 on land terrain,
yield equal (zero) crater diameters, so the crater diameter does not
strictly increase. -/
theorem C4_angle_zero_cex :
    Asteroid.Valid ⟨2, 1, 1, 0, .stony, 3000, 0, none⟩ ∧
    Asteroid.Valid ⟨2, 1, 2, 0, .stony, 3000, 0, none⟩ ∧
    sameExceptVelocity ⟨2, 1, 1, 0, .stony, 3000, 0, none⟩
      ⟨2, 1, 2, 0, .stony, 3000, 0, none⟩ ∧
    (⟨2, 1, 1, 0, .stony, 3000, 0, none⟩ : Asteroid).velocity <
      (⟨2, 1, 2, 0, .stony, 3000, 0, none⟩ : Asteroid).velocity ∧
    (calculate_impact_result ⟨2, 1, 1, 0, .stony, 3000, 0, none⟩
      ⟨0, 0, 0, .land, none, 0, 0, none, none⟩).isSome ∧
    (calculate_impact_result ⟨2, 1, 2, 0, .stony, 3000, 0, none⟩
      ⟨0, 0, 0, .land, none, 0, 0, none, none⟩).isSome ∧
    ∀ r1 ∈ calculate_impact_result ⟨2, 1, 1, 0, .stony, 3000, 0, none⟩
      ⟨0, 0, 0, .land, none, 0, 0, none, none⟩,
    ∀ r2 ∈ calculate_impact_result ⟨2, 1, 2, 0, .stony, 3000, 0, none⟩
      ⟨0, 0, 0, .land, none, 0, 0, none, none⟩,
      ¬ r1.crater_diameter < r2.crater_diameter := by
  have hE1 : (0:ℝ) < calculate_kinetic_energy ⟨2, 1, 1, 0, .stony, 3000, 0, none⟩ := by
    norm_num [calculate_kinetic_energy]
  have hE2 : (0:ℝ) < calculate_kinetic_energy ⟨2, 1, 2, 0, .stony, 3000, 0, none⟩ := by
    norm_num [calculate_kinetic_energy]
  have hno : (⟨0, 0, 0, .land, none, 0, 0, none, none⟩ : ImpactLocation).terrain_type
      = TerrainType.ocean → craterD ⟨2, 1, 1, 0, .stony, 3000, 0, none⟩
        ⟨0, 0, 0, .land, none, 0, 0, none, none⟩ ≠ 0 := by
    intro h; exact absurd h (by simp)
  have hno2 : (⟨0, 0, 0, .land, none, 0, 0, none, none⟩ : ImpactLocation).terrain_type
      = TerrainType.ocean → craterD ⟨2, 1, 2, 0, .stony, 3000, 0, none⟩
        ⟨0, 0, 0, .land, none, 0, 0, none, none⟩ ≠ 0 := by
    intro h; exact absurd h (by simp)
  refine ⟨by norm_num [Asteroid.Valid] <;> exact fun s h => absurd h (by simp), by norm_num [Asteroid.Valid] <;> exact fun s h => absurd h (by simp),
    ⟨rfl, rfl, rfl, rfl, rfl, rfl, rfl⟩, by norm_num, ?_, ?_, ?_⟩
  · rw [impact_result_eq _ _ hE1 hno]; rfl
  · rw [impact_result_eq _ _ hE2 hno2]; rfl
  · intro r1 hr1 r2 hr2
    rw [impact_result_eq _ _ hE1 hno] at hr1
    rw [impact_result_eq _ _ hE2 hno2] at hr2
    simp only [Option.mem_def, Option.some.injEq] at hr1 hr2
    subst hr1; subst hr2
    have hz1 : craterD ⟨2, 1, 1, 0, .stony, 3000, 0, none⟩
        ⟨0, 0, 0, .land, none, 0, 0, none, none⟩ = 0 := craterD_zero_angle _ _ rfl
    have hz2 : craterD ⟨2, 1, 2, 0, .stony, 3000, 0, none⟩
        ⟨0, 0, 0, .land, none, 0, 0, none, none⟩ = 0 := craterD_zero_angle _ _ rfl
    show ¬ craterD _ _ < craterD _ _
    rw [hz1, hz2]
    exact lt_irrefl 0

/-- C4 (amended): for valid asteroids with strictly positive impact angle
that agree on every field except a strictly larger velocity (or strictly
larger mass), the computed blast radius, crater diameter and seismic
magnitude are all strictly larger. -/
theorem C4_monotonic (a1 a2 : Asteroid) (loc : ImpactLocation)
    (h1 : a1.Valid) (h2 : a2.Valid) (_hl : loc.Valid)
    (hang : 0 < a1.impact_angle)
    (hpair : (sameExceptVelocity a1 a2 ∧ a1.velocity < a2.velocity) ∨
             (sameExceptMass a1 a2 ∧ a1.mass < a2.mass)) :
    ∀ r1 ∈ calculate_impact_result a1 loc, ∀ r2 ∈ calculate_impact_result a2 loc,
      r1.blast_radius < r2.blast_radius ∧
      r1.crater_diameter < r2.crater_diameter ∧
      r1.seismic_magnitude < r2.seismic_magnitude := by
  have hE1 := ke_pos a1 h1
  have hEE : calculate_kinetic_energy a1 < calculate_kinetic_energy a2 := by
    rcases hpair with ⟨hs, hv⟩ | ⟨hs, hm⟩
    · have hmass := hs.1
      have hm1 := h1.1
      have hv1 := h1.2.2.1
      have hv2 : 0 < a2.velocity := lt_trans hv1 hv
      have hsq : a1.velocity ^ 2 < a2.velocity ^ 2 := by nlinarith
      unfold calculate_kinetic_energy
      rw [← hmass, mul_assoc, mul_assoc]
      exact mul_lt_mul_of_pos_left
        (mul_lt_mul_of_pos_left hsq h1.1) (by norm_num)
    · have hvel := hs.1
      have hv1 := h1.2.2.1
      have hp : 0 < a1.velocity ^ 2 := pow_pos hv1 2
      unfold calculate_kinetic_energy
      rw [← hvel]
      rw [mul_assoc, mul_assoc]
      exact mul_lt_mul_of_pos_left
        (mul_lt_mul_of_pos_right hm hp) (by norm_num)
  have hangle : a1.impact_angle = a2.impact_angle := by
    rcases hpair with ⟨hs, -⟩ | ⟨hs, -⟩ <;> exact hs.2.2.1
  have hang2 : 0 < a2.impact_angle := hangle ▸ hang
  have hcd1 := craterD_pos a1 loc h1 hang
  have hcd2 := craterD_pos a2 loc h2 hang2
  intro r1 hr1 r2 hr2
  rw [impact_result_eq a1 loc hE1 fun _ => ne_of_gt hcd1] at hr1
  rw [impact_result_eq a2 loc (lt_trans hE1 hEE) fun _ => ne_of_gt hcd2] at hr2
  simp only [Option.mem_def, Option.some.injEq] at hr1 hr2
  subst hr1; subst hr2
  exact ⟨blastRadiusOf_lt a1 a2 hE1 hEE,
    craterD_lt a1 a2 loc hangle hang h1.2.2.2.2.1 hE1 hEE,
    seismicMagnitudeOf_lt a1 a2 hE1 hEE⟩

/-- Witness for C4_monotonic at two concrete asteroids differing only in
velocity. -/
theorem C4_monotonic_witness :
    (impactSpecRecord ⟨2, 1, 1, 45, .stony, 3000, 0, none⟩
      ⟨0, 0, 0, .land, none, 0, 0, none, none⟩).blast_radius <
    (impactSpecRecord ⟨2, 1, 2, 45, .stony, 3000, 0, none⟩
      ⟨0, 0, 0, .land, none, 0, 0, none, none⟩).blast_radius ∧
    (impactSpecRecord ⟨2, 1, 1, 45, .stony, 3000, 0, none⟩
      ⟨0, 0, 0, .land, none, 0, 0, none, none⟩).crater_diameter <
    (impactSpecRecord ⟨2, 1, 2, 45, .stony, 3000, 0, none⟩
      ⟨0, 0, 0, .land, none, 0, 0, none, none⟩).crater_diameter ∧
    (impactSpecRecord ⟨2, 1, 1, 45, .stony, 3000, 0, none⟩
      ⟨0, 0, 0, .land, none, 0, 0, none, none⟩).seismic_magnitude <
    (impactSpecRecord ⟨2, 1, 2, 45, .stony, 3000, 0, none⟩
      ⟨0, 0, 0, .land, none, 0, 0, none, none⟩).seismic_magnitude := by
  have hE1 : 0 < calculate_kinetic_energy ⟨2, 1, 1, 45, .stony, 3000, 0, none⟩ := by
    norm_num [calculate_kinetic_energy]
  have hE2 : 0 < calculate_kinetic_energy ⟨2, 1, 2, 45, .stony, 3000, 0, none⟩ := by
    norm_num [calculate_kinetic_energy]
  have hno1 : (⟨0, 0, 0, .land, none, 0, 0, none, none⟩ : ImpactLocation).terrain_type
      = TerrainType.ocean → craterD ⟨2, 1, 1, 45, .stony, 3000, 0, none⟩
        ⟨0, 0, 0, .land, none, 0, 0, none, none⟩ ≠ 0 := fun h => absurd h (by simp)
  have hno2 : (⟨0, 0, 0, .land, none, 0, 0, none, none⟩ : ImpactLocation).terrain_type
      = TerrainType.ocean → craterD ⟨2, 1, 2, 45, .stony, 3000, 0, none⟩
        ⟨0, 0, 0, .land, none, 0, 0, none, none⟩ ≠ 0 := fun h => absurd h (by simp)
  have h := C4_monotonic ⟨2, 1, 1, 45, .stony, 3000, 0, none⟩
    ⟨2, 1, 2, 45, .stony, 3000, 0, none⟩ ⟨0, 0, 0, .land, none, 0, 0, none, none⟩
    (by norm_num [Asteroid.Valid] <;> exact fun s h => absurd h (by simp))
    (by norm_num [Asteroid.Valid] <;> exact fun s h => absurd h (by simp))
    (by norm_num [ImpactLocation.Valid] <;> exact fun s h => absurd h (by simp))
    (by norm_num)
    (Or.inl ⟨⟨rfl, rfl, rfl, rfl, rfl, rfl, rfl⟩, by norm_num⟩)
  rw [impact_result_eq _ _ hE1 hno1, impact_result_eq _ _ hE2 hno2] at h
  exact h _ rfl _ rfl

/-- C5 (counterexample): an ocean impact of a valid asteroid with
impact_angle = 0 and water_depth set does not yield any tsunami height:
the tsunami stage divides by the zero crater diameter and the pipeline
fails. -/
theorem C5_angle_zero_cex :
    Asteroid.Valid ⟨2, 1, 3, 0, .iron, 7800, 0, none⟩ ∧
    ImpactLocation.Valid ⟨10, 20, 0, .ocean, some 500, 50, 0.2, none, none⟩ ∧
    (⟨10, 20, 0, .ocean, some 500, 50, 0.2, none, none⟩ : ImpactLocation).terrain_type
      = TerrainType.ocean ∧
    calculate_impact_result ⟨2, 1, 3, 0, .iron, 7800, 0, none⟩
      ⟨10, 20, 0, .ocean, some 500, 50, 0.2, none, none⟩ = none := by
  refine ⟨by norm_num [Asteroid.Valid] <;> exact fun s h => absurd h (by simp), by norm_num [ImpactLocation.Valid] <;> exact fun s h => absurd h (by simp), rfl, ?_⟩
  exact impact_result_none_of_ocean_zero _ _ rfl (craterD_zero_angle _ _ rfl)

/-- C5 (amended): for every valid asteroid and location, non-ocean terrain
yields tsunami height exactly 0; ocean terrain with strictly positive
impact angle yields a result whose tsunami height is strictly positive and
equals 0.5 (E/1000)^(1/4) (water_depth / crater_diameter)^(1/2), where
the effective water depth defaults to 1000 m when unset. -/
theorem C5_tsunami_terrain (a : Asteroid) (loc : ImpactLocation)
    (ha : a.Valid) (hl : loc.Valid) :
    (loc.terrain_type ≠ TerrainType.ocean →
      ∀ r ∈ calculate_impact_result a loc, r.tsunami_height = 0) ∧
    (loc.terrain_type = TerrainType.ocean → 0 < a.impact_angle →
      (calculate_impact_result a loc).isSome ∧
      ∀ r ∈ calculate_impact_result a loc,
        0 < r.tsunami_height ∧
        r.tsunami_height =
          0.5 * (calculate_kinetic_energy a / 1000) ^ ((1:ℝ)/4) *
            (waterDepthOrDefault loc.water_depth / r.crater_diameter) ^ ((1:ℝ)/2)) := by
  have hE := ke_pos a ha
  constructor
  · intro ho r hr
    rw [impact_result_eq a loc hE fun h => absurd h ho] at hr
    simp only [Option.mem_def, Option.some.injEq] at hr
    subst hr
    show (if loc.terrain_type = TerrainType.ocean then tsunamiHeightOf a loc else 0) = 0
    rw [if_neg ho]
  · intro ho hang
    have hcd := craterD_pos a loc ha hang
    rw [impact_result_eq a loc hE fun _ => ne_of_gt hcd]
    refine ⟨rfl, ?_⟩
    intro r hr
    simp only [Option.mem_def, Option.some.injEq] at hr
    subst hr
    constructor
    · show 0 < (if loc.terrain_type = TerrainType.ocean then tsunamiHeightOf a loc else 0)
      rw [if_pos ho]
      exact tsunamiHeightOf_pos a loc ha hl hang
    · show (if loc.terrain_type = TerrainType.ocean then tsunamiHeightOf a loc else 0) = _
      rw [if_pos ho]
      rfl

/-- Witness for C5_tsunami_terrain at a concrete ocean impact. -/
theorem C5_tsunami_terrain_witness :
    ((⟨5, 5, 0, .ocean, some 2000, 10, 0.3, none, none⟩ : ImpactLocation).terrain_type
        ≠ TerrainType.ocean →
      ∀ r ∈ calculate_impact_result ⟨4, 2, 2, 30, .mixed, 4000, 0, none⟩
        ⟨5, 5, 0, .ocean, some 2000, 10, 0.3, none, none⟩, r.tsunami_height = 0) ∧
    ((⟨5, 5, 0, .ocean, some 2000, 10, 0.3, none, none⟩ : ImpactLocation).terrain_type
        = TerrainType.ocean →
      0 < (⟨4, 2, 2, 30, .mixed, 4000, 0, none⟩ : Asteroid).impact_angle →
      (calculate_impact_result ⟨4, 2, 2, 30, .mixed, 4000, 0, none⟩
        ⟨5, 5, 0, .ocean, some 2000, 10, 0.3, none, none⟩).isSome ∧
      ∀ r ∈ calculate_impact_result ⟨4, 2, 2, 30, .mixed, 4000, 0, none⟩
        ⟨5, 5, 0, .ocean, some 2000, 10, 0.3, none, none⟩,
        0 < r.tsunami_height ∧
        r.tsunami_height =
          0.5 * (calculate_kinetic_energy ⟨4, 2, 2, 30, .mixed, 4000, 0, none⟩ / 1000)
              ^ ((1:ℝ)/4) *
            (waterDepthOrDefault (⟨5, 5, 0, .ocean, some 2000, 10, 0.3, none, none⟩
                : ImpactLocation).water_depth / r.crater_diameter) ^ ((1:ℝ)/2)) :=
  C5_tsunami_terrain _ _ (by norm_num [Asteroid.Valid] <;> exact fun s h => absurd h (by simp))
    (by norm_num [ImpactLocation.Valid] <;> exact fun s h => absurd h (by simp))

theorem calculate_blast_effects_some_inv (a : Asteroid) (cd : ℝ) (b : BlastData)
    (h : calculate_blast_effects a cd = some b) :
    0 < calculate_kinetic_energy a ∧
      b = { blast_radius := blastRadiusOf a, thermal_radius := thermalRadiusOf a,
            fireball_radius := fireballRadiusOf a,
            seismic_magnitude := seismicMagnitudeOf a } := by
  by_cases hE : 0 < calculate_kinetic_energy a
  · rw [calculate_blast_effects_eq a cd hE] at h
    exact ⟨hE, (Option.some.inj h).symm⟩
  · exfalso
    simp only [calculate_blast_effects, checkedLog10, keMt_mul] at h
    rw [if_neg hE] at h
    simp at h

/-- Any result produced by the pipeline has the closed-form blast,
thermal, seismic and affected-area values, and the energy is positive. -/
theorem mem_impact_result_inv (a : Asteroid) (loc : ImpactLocation)
    (r : ImpactResultData) (hr : r ∈ calculate_impact_result a loc) :
    0 < calculate_kinetic_energy a ∧
    r.blast_radius = blastRadiusOf a ∧
    r.thermal_radius = thermalRadiusOf a ∧
    r.seismic_magnitude = seismicMagnitudeOf a ∧
    r.affected_area = Real.pi * (evacOf a / 1000) ^ 2 := by
  simp only [calculate_impact_result] at hr
  cases hb : calculate_blast_effects a (calculate_crater_formation a loc).crater_diameter with
  | none => rw [hb] at hr; exact absurd hr (by simp)
  | some b =>
    rw [hb] at hr
    obtain ⟨hE, rfl⟩ := calculate_blast_effects_some_inv a _ b hb
    cases ht : calculate_tsunami_effects a loc
        (calculate_crater_formation a loc).crater_diameter with
    | none => rw [ht] at hr; exact absurd hr (by simp)
    | some t =>
      rw [ht] at hr
      simp only [Option.mem_def, Option.some.injEq] at hr
      subst hr
      exact ⟨hE, rfl, rfl, rfl, rfl⟩

theorem human_casualties_nonneg (ir : ImpactResultData) (loc : ImpactLocation)
    (hpd : 0 ≤ loc.population_density)
    (hb : 0 ≤ ir.blast_radius) (hbt : ir.blast_radius ≤ ir.thermal_radius) :
    0 ≤ (calculate_human_casualties ir loc).estimated_casualties ∧
    (calculate_human_casualties ir loc).injured_count =
      (calculate_human_casualties ir loc).estimated_casualties * 3 ∧
    (calculate_human_casualties ir loc).displaced_count =
      (calculate_human_casualties ir loc).estimated_casualties * 10 := by
  refine ⟨?_, rfl, rfl⟩
  simp only [calculate_human_casualties]
  have h1 : 0 ≤ pyInt (loc.population_density * Real.pi *
      (ir.blast_radius / 1000) ^ 2 * 0.9) :=
    pyInt_nonneg _ (by positivity)
  have hsq : (ir.blast_radius / 1000) ^ 2 ≤ (ir.thermal_radius / 1000) ^ 2 := by
    have h1000 : ir.blast_radius / 1000 ≤ ir.thermal_radius / 1000 := by linarith
    exact pow_le_pow_left₀ (by positivity) h1000 2
  have hmono : loc.population_density * Real.pi * (ir.blast_radius / 1000) ^ 2 ≤
      loc.population_density * Real.pi * (ir.thermal_radius / 1000) ^ 2 :=
    mul_le_mul_of_nonneg_left hsq (by positivity)
  have h2 : 0 ≤ pyInt ((loc.population_density * Real.pi *
      (ir.thermal_radius / 1000) ^ 2 - loc.population_density * Real.pi *
      (ir.blast_radius / 1000) ^ 2) * 0.3) :=
    pyInt_nonneg _ (by nlinarith)
  apply pyInt_nonneg
  have hfac := casualtyScaling_nonneg loc.terrain_type
  have hsum : (0:ℤ) ≤ pyInt (loc.population_density * Real.pi *
      (ir.blast_radius / 1000) ^ 2 * 0.9) + pyInt ((loc.population_density * Real.pi *
      (ir.thermal_radius / 1000) ^ 2 - loc.population_density * Real.pi *
      (ir.blast_radius / 1000) ^ 2) * 0.3) := add_nonneg h1 h2
  have hcast : (0:ℝ) ≤ ((pyInt (loc.population_density * Real.pi *
      (ir.blast_radius / 1000) ^ 2 * 0.9) + pyInt ((loc.population_density * Real.pi *
      (ir.thermal_radius / 1000) ^ 2 - loc.population_density * Real.pi *
      (ir.blast_radius / 1000) ^ 2) * 0.3) : ℤ) : ℝ) := by exact_mod_cast hsum
  exact mul_nonneg hcast hfac

theorem infrastructure_damage_nonneg (ir : ImpactResultData) (loc : ImpactLocation)
    (hinf : 0 ≤ loc.infrastructure_density) (har : 0 ≤ ir.affected_area) :
    0 ≤ (calculate_infrastructure_damage ir loc).infrastructure_damage_cost ∧
    0 ≤ (calculate_infrastructure_damage ir loc).buildings_destroyed ∧
    0 ≤ (calculate_infrastructure_damage ir loc).buildings_damaged := by
  have hfac := infrastructureScaling_nonneg loc.terrain_type
  simp only [calculate_infrastructure_damage]
  have hba : 0 ≤ pyInt (ir.affected_area * 1000 *
      (loc.infrastructure_density * infrastructureScaling loc.terrain_type)) :=
    pyInt_nonneg _ (by positivity)
  have hbacast : (0:ℝ) ≤ ((pyInt (ir.affected_area * 1000 *
      (loc.infrastructure_density * infrastructureScaling loc.terrain_type)) : ℤ) : ℝ) := by
    exact_mod_cast hba
  have hd : 0 ≤ pyInt (((pyInt (ir.affected_area * 1000 *
      (loc.infrastructure_density * infrastructureScaling loc.terrain_type)) : ℤ) : ℝ) * 0.3) :=
    pyInt_nonneg _ (by nlinarith)
  have hdm : 0 ≤ pyInt (((pyInt (ir.affected_area * 1000 *
      (loc.infrastructure_density * infrastructureScaling loc.terrain_type)) : ℤ) : ℝ) * 0.7) :=
    pyInt_nonneg _ (by nlinarith)
  exact ⟨by nlinarith, hd, hdm⟩

/-- The condition under which DamageAssessment construction succeeds. -/
theorem mkDamageAssessment_isSome_iff (d : DamageData) :
    (mkDamageAssessment d).isSome ↔
      (0 ≤ d.estimated_casualties ∧ 0 ≤ d.injured_count ∧ 0 ≤ d.displaced_count ∧
        0 ≤ d.infrastructure_damage_cost ∧ 0 ≤ d.buildings_destroyed ∧
        0 ≤ d.buildings_damaged ∧
        (0 ≤ d.environmental_impact_score ∧ d.environmental_impact_score ≤ 10) ∧
        0 ≤ d.ecosystem_affected_area ∧ 0 ≤ d.total_economic_cost ∧
        0 ≤ d.recovery_time_years) := by
  unfold mkDamageAssessment
  by_cases h : (0 ≤ d.estimated_casualties ∧ 0 ≤ d.injured_count ∧ 0 ≤ d.displaced_count ∧
      0 ≤ d.infrastructure_damage_cost ∧ 0 ≤ d.buildings_destroyed ∧
      0 ≤ d.buildings_damaged ∧
      (0 ≤ d.environmental_impact_score ∧ d.environmental_impact_score ≤ 10) ∧
      0 ≤ d.ecosystem_affected_area ∧ 0 ≤ d.total_economic_cost ∧
      0 ≤ d.recovery_time_years)
  · rw [if_pos h]; simpa using h
  · rw [if_neg h]; simpa using h

theorem apply_mitigation_none_of_ge (ast : Asteroid) (dv : ℝ)
    (hv : 0 < ast.velocity) (h : ast.velocity ≤ dv) :
    max 0 (ast.velocity - dv) = 0 ∧ apply_mitigation ast dv = none := by
  have hdv : dv > 0 := lt_of_lt_of_le hv h
  have hmax : max 0 (ast.velocity - dv) = 0 := max_eq_left (by linarith)
  refine ⟨hmax, ?_⟩
  simp only [apply_mitigation]
  rw [if_pos hdv, hmax]
  have hmk : mkAsteroid ast.mass ast.diameter 0 ast.impact_angle ast.composition
      (some ast.density) (some ast.porosity) ast.strength = none := by
    unfold mkAsteroid
    rw [if_neg fun hcon => lt_irrefl 0 hcon.2.2.1]
  rw [hmk]

/-- C2 (counterexample): for a valid asteroid and dv equal to its
velocity, the endpoint computes adjusted velocity max(0, v - dv) = 0, but
rebuilding the asteroid through AsteroidCreate then violates the
velocity > 0 field constraint: the request fails with a validation error
and no energy_reduction of 100 is ever reported. -/
theorem C2_full_deflection_cex :
    Asteroid.Valid ⟨1e7, 20, 19000, 20, .stony, 3000, 0, none⟩ ∧
    (⟨1e7, 20, 19000, 20, .stony, 3000, 0, none⟩ : Asteroid).velocity ≤ 19000 ∧
    apply_mitigation ⟨1e7, 20, 19000, 20, .stony, 3000, 0, none⟩ 19000 = none := by
  refine ⟨?_, by norm_num, ?_⟩
  · norm_num [Asteroid.Valid] <;> exact fun s h => absurd h (by simp)
  · exact (apply_mitigation_none_of_ge _ _ (by norm_num) (by norm_num)).2

/-- C2 (amended): for every valid asteroid and dv at least its velocity,
the adjusted velocity max(0, velocity - dv) is exactly 0, but the
mitigation step then fails (the rebuilt asteroid violates velocity > 0),
so the pipeline does not run and no energy reduction is reported. -/
theorem C2_full_deflection (a : Asteroid) (dv : ℝ) (ha : a.Valid)
    (h : a.velocity ≤ dv) :
    max 0 (a.velocity - dv) = 0 ∧ apply_mitigation a dv = none :=
  apply_mitigation_none_of_ge a dv ha.2.2.1 h

/-- Witness for C2_full_deflection at a concrete asteroid. -/
theorem C2_full_deflection_witness :
    max 0 ((⟨1e7, 20, 19000, 20, .stony, 3000, 0, none⟩ : Asteroid).velocity - 25000) = 0 ∧
    apply_mitigation ⟨1e7, 20, 19000, 20, .stony, 3000, 0, none⟩ 25000 = none :=
  C2_full_deflection _ _
    (by norm_num [Asteroid.Valid] <;> exact fun s h => absurd h (by simp))
    (by norm_num)

/-- C10: asteroid construction never rejects a diameter as inconsistent
with mass and density: the diameter validator runs while only the mass is
in the validated-values dictionary (density comes later in field order),
so its consistency check is skipped and construction succeeds for every
positive mass, density and diameter, however mismatched. -/
theorem C10_diameter_check_unreachable
    (mass diameter velocity impact_angle : ℝ) (c : AsteroidComposition)
    (density porosity strength : Option ℝ)
    (hm : 0 < mass) (hd : 0 < diameter) (hv : 0 < velocity)
    (h0 : 0 ≤ impact_angle) (h90 : impact_angle ≤ 90)
    (hden : ∀ d ∈ density, 0 < d) (hpor : ∀ p ∈ porosity, 0 ≤ p ∧ p ≤ 1)
    (hst : ∀ s ∈ strength, 0 < s) :
    mkAsteroid mass diameter velocity impact_angle c density porosity strength =
      some { mass := mass, diameter := diameter, velocity := velocity,
             impact_angle := impact_angle, composition := c,
             density := set_density density c, porosity := porosity.getD 0,
             strength := strength } := by
  unfold mkAsteroid
  rw [if_pos ⟨hm, hd, hv, h0, h90, hden, hpor, hst⟩]
  rfl

/-- Witness for C10_diameter_check_unreachable: a 1000 kg iron asteroid
with a wildly inconsistent 123456 m diameter is accepted. -/
theorem C10_diameter_check_unreachable_witness :
    mkAsteroid 1000 123456 5 45 .iron none none none =
      some { mass := 1000, diameter := 123456, velocity := 5, impact_angle := 45,
             composition := .iron, density := set_density none .iron,
             porosity := (none : Option ℝ).getD 0, strength := none } :=
  C10_diameter_check_unreachable _ _ _ _ _ _ _ _
    (by norm_num) (by norm_num) (by norm_num) (by norm_num) (by norm_num)
    (fun d h => absurd h (by simp)) (fun p h => absurd h (by simp))
    (fun s h => absurd h (by simp))

/-- C3 (counterexample): a valid low-energy asteroid (kinetic energy
0.01 J, seismic magnitude 0.67 log10(0.01) + 4.4 = 3.06) on rural terrain
produces a negative environmental impact score (-0.94), and assembling the
DamageAssessment model then fails its ge=0 field validation: the
damage-assessment stage does not succeed for all valid inputs. -/
theorem C3_negative_score_cex :
    Asteroid.Valid ⟨0.02, 1, 1, 45, .stony, 3000, 0, none⟩ ∧
    ImpactLocation.Valid ⟨0, 0, 0, .rural, none, 0, 0, none, none⟩ ∧
    (calculate_impact_result ⟨0.02, 1, 1, 45, .stony, 3000, 0, none⟩
      ⟨0, 0, 0, .rural, none, 0, 0, none, none⟩).isSome ∧
    ∀ r ∈ calculate_impact_result ⟨0.02, 1, 1, 45, .stony, 3000, 0, none⟩
        ⟨0, 0, 0, .rural, none, 0, 0, none, none⟩,
      (assess_damage ⟨0.02, 1, 1, 45, .stony, 3000, 0, none⟩
        ⟨0, 0, 0, .rural, none, 0, 0, none, none⟩ r).environmental_impact_score < 0 ∧
      mkDamageAssessment (assess_damage ⟨0.02, 1, 1, 45, .stony, 3000, 0, none⟩
        ⟨0, 0, 0, .rural, none, 0, 0, none, none⟩ r) = none := by
  have hEval : calculate_kinetic_energy ⟨0.02, 1, 1, 45, .stony, 3000, 0, none⟩
      = 0.01 := by norm_num [calculate_kinetic_energy]
  have hEpos : 0 < calculate_kinetic_energy ⟨0.02, 1, 1, 45, .stony, 3000, 0, none⟩ := by
    rw [hEval]; norm_num
  have hno : (⟨0, 0, 0, .rural, none, 0, 0, none, none⟩ : ImpactLocation).terrain_type
      = TerrainType.ocean →
      craterD ⟨0.02, 1, 1, 45, .stony, 3000, 0, none⟩
        ⟨0, 0, 0, .rural, none, 0, 0, none, none⟩ ≠ 0 := fun h => absurd h (by simp)
  have hsm : seismicMagnitudeOf ⟨0.02, 1, 1, 45, .stony, 3000, 0, none⟩ = 3.06 := by
    unfold seismicMagnitudeOf
    rw [hEval]
    have hlog : Real.log 0.01 = (-2 : ℤ) * Real.log 10 := by
      rw [show (0.01:ℝ) = 10 ^ (-2 : ℤ) by norm_num]
      exact Real.log_zpow _ _
    rw [hlog]
    rw [mul_div_assoc, div_self (ne_of_gt (Real.log_pos (by norm_num)))]
    norm_num
  refine ⟨?_, ?_, ?_, ?_⟩
  · norm_num [Asteroid.Valid] <;> exact fun s h => absurd h (by simp)
  · norm_num [ImpactLocation.Valid] <;> exact fun s h => absurd h (by simp)
  · rw [impact_result_eq _ _ hEpos hno]; rfl
  · intro r hr
    rw [impact_result_eq _ _ hEpos hno] at hr
    simp only [Option.mem_def, Option.some.injEq] at hr
    subst hr
    have hscore : (assess_damage ⟨0.02, 1, 1, 45, .stony, 3000, 0, none⟩
        ⟨0, 0, 0, .rural, none, 0, 0, none, none⟩
        (impactSpecRecord ⟨0.02, 1, 1, 45, .stony, 3000, 0, none⟩
          ⟨0, 0, 0, .rural, none, 0, 0, none, none⟩)).environmental_impact_score
        = -0.94 := by
      show min 10.0 (min 10.0 (seismicMagnitudeOf ⟨0.02, 1, 1, 45, .stony, 3000, 0, none⟩
        - 4.0) * environmentalScaling TerrainType.rural) = -0.94
      rw [hsm]
      rw [show min (10.0:ℝ) (3.06 - 4.0) = 3.06 - 4.0 from min_eq_right (by norm_num)]
      simp only [environmentalScaling]
      rw [show ((3.06:ℝ) - 4.0) * 1.0 = -0.94 by norm_num]
      exact min_eq_right (by norm_num)
    refine ⟨by rw [hscore]; norm_num, ?_⟩
    unfold mkDamageAssessment
    rw [if_neg]
    intro hcon
    have hge := hcon.2.2.2.2.2.2.1.1
    rw [hscore] at hge
    norm_num at hge

/-- C3 (amended): the environmental stage computes
score = min(10, min(10, seismic_magnitude - 4) * terrain_multiplier) with
no lower clamp (so the score is negative for small magnitudes), and
assembling the DamageAssessment value succeeds exactly when the score is
nonnegative: for pipeline results with a negative score the ge=0 field
validation fails. -/
theorem C3_env_score_and_assembly (a : Asteroid) (loc : ImpactLocation)
    (_ha : a.Valid) (hl : loc.Valid) :
    ∀ r ∈ calculate_impact_result a loc,
      (assess_damage a loc r).environmental_impact_score =
        min 10.0 (min 10.0 (r.seismic_magnitude - 4.0) *
          environmentalScaling loc.terrain_type) ∧
      ((mkDamageAssessment (assess_damage a loc r)).isSome ↔
        0 ≤ (assess_damage a loc r).environmental_impact_score) := by
  intro r hr
  obtain ⟨hE, hbr, htr, hsm, harea⟩ := mem_impact_result_inv a loc r hr
  refine ⟨rfl, ?_⟩
  have hpd : 0 ≤ loc.population_density := hl.2.2.2.2.2.1
  have hinf : 0 ≤ loc.infrastructure_density := hl.2.2.2.2.2.2.1
  have hb0 : 0 ≤ r.blast_radius := by
    rw [hbr]; exact blastRadiusOf_nonneg a (le_of_lt hE)
  have hbt : r.blast_radius ≤ r.thermal_radius := by
    rw [hbr, htr]; exact thermalRadiusOf_ge a (le_of_lt hE)
  have har0 : 0 ≤ r.affected_area := by rw [harea]; positivity
  obtain ⟨hcas, hinj, hdis⟩ := human_casualties_nonneg r loc hpd hb0 hbt
  obtain ⟨hicost, hdest, hdam⟩ := infrastructure_damage_nonneg r loc hinf har0
  rw [mkDamageAssessment_isSome_iff]
  constructor
  · exact fun h => h.2.2.2.2.2.2.1.1
  · intro hscore
    have hscore2 : 0 ≤ (calculate_environmental_impact r loc).environmental_impact_score :=
      hscore
    have hcasR : (0:ℝ) ≤ ((calculate_human_casualties r loc).estimated_casualties : ℝ) := by
      exact_mod_cast hcas
    have hinjZ : 0 ≤ (calculate_human_casualties r loc).injured_count := by
      rw [hinj]; exact mul_nonneg hcas (by norm_num)
    have hdisZ : 0 ≤ (calculate_human_casualties r loc).displaced_count := by
      rw [hdis]; exact mul_nonneg hcas (by norm_num)
    have hinjR : (0:ℝ) ≤ ((calculate_human_casualties r loc).injured_count : ℝ) := by
      exact_mod_cast hinjZ
    have hdisR : (0:ℝ) ≤ ((calculate_human_casualties r loc).displaced_count : ℝ) := by
      exact_mod_cast hdisZ
    have hicostR : (0:ℝ) ≤
        ((calculate_infrastructure_damage r loc).infrastructure_damage_cost : ℝ) := by
      exact_mod_cast hicost
    refine ⟨hcas, hinjZ, hdisZ, hicost, hdest, hdam, ⟨hscore, ?_⟩, ?_, ?_, ?_⟩
    · have h1 : (assess_damage a loc r).environmental_impact_score =
          min 10.0 (min 10.0 (r.seismic_magnitude - 4.0) *
            environmentalScaling loc.terrain_type) := rfl
      rw [h1]
      have h2 := min_le_left (10.0:ℝ) (min 10.0 (r.seismic_magnitude - 4.0) *
        environmentalScaling loc.terrain_type)
      linarith
    · show 0 ≤ r.affected_area * 1.5
      nlinarith
    · show 0 ≤ ((calculate_human_casualties r loc).estimated_casualties : ℝ) * 1000000 +
        ((calculate_human_casualties r loc).injured_count : ℝ) * 100000 +
        ((calculate_human_casualties r loc).displaced_count : ℝ) * 50000 +
        ((calculate_infrastructure_damage r loc).infrastructure_damage_cost : ℝ) +
        (calculate_environmental_impact r loc).environmental_impact_score * 1e9
      nlinarith
    · show 0 ≤ min 50.0
        ((calculate_environmental_impact r loc).environmental_impact_score * 5.0)
      exact le_min (by norm_num) (mul_nonneg hscore2 (by norm_num))

/-- Witness for C3_env_score_and_assembly at a concrete urban impact. -/
theorem C3_env_score_and_assembly_witness :
    (assess_damage ⟨1e7, 20, 19000, 20, .stony, 3000, 0, none⟩
      ⟨30, 30, 0, .urban, none, 1000, 0.9, none, none⟩
      (impactSpecRecord ⟨1e7, 20, 19000, 20, .stony, 3000, 0, none⟩
        ⟨30, 30, 0, .urban, none, 1000, 0.9, none, none⟩)).environmental_impact_score =
      min 10.0 (min 10.0 ((impactSpecRecord ⟨1e7, 20, 19000, 20, .stony, 3000, 0, none⟩
        ⟨30, 30, 0, .urban, none, 1000, 0.9, none, none⟩).seismic_magnitude - 4.0) *
        environmentalScaling (⟨30, 30, 0, .urban, none, 1000, 0.9, none, none⟩
          : ImpactLocation).terrain_type) ∧
    ((mkDamageAssessment (assess_damage ⟨1e7, 20, 19000, 20, .stony, 3000, 0, none⟩
      ⟨30, 30, 0, .urban, none, 1000, 0.9, none, none⟩
      (impactSpecRecord ⟨1e7, 20, 19000, 20, .stony, 3000, 0, none⟩
        ⟨30, 30, 0, .urban, none, 1000, 0.9, none, none⟩))).isSome ↔
      0 ≤ (assess_damage ⟨1e7, 20, 19000, 20, .stony, 3000, 0, none⟩
        ⟨30, 30, 0, .urban, none, 1000, 0.9, none, none⟩
        (impactSpecRecord ⟨1e7, 20, 19000, 20, .stony, 3000, 0, none⟩
          ⟨30, 30, 0, .urban, none, 1000, 0.9, none, none⟩)).environmental_impact_score) := by
  have hE : 0 < calculate_kinetic_energy ⟨1e7, 20, 19000, 20, .stony, 3000, 0, none⟩ := by
    norm_num [calculate_kinetic_energy]
  have hno : (⟨30, 30, 0, .urban, none, 1000, 0.9, none, none⟩
      : ImpactLocation).terrain_type = TerrainType.ocean →
      craterD ⟨1e7, 20, 19000, 20, .stony, 3000, 0, none⟩
        ⟨30, 30, 0, .urban, none, 1000, 0.9, none, none⟩ ≠ 0 := fun h => absurd h (by simp)
  have h := C3_env_score_and_assembly ⟨1e7, 20, 19000, 20, .stony, 3000, 0, none⟩
    ⟨30, 30, 0, .urban, none, 1000, 0.9, none, none⟩
    (by norm_num [Asteroid.Valid] <;> exact fun s h => absurd h (by simp))
    (by norm_num [ImpactLocation.Valid] <;> exact fun s h => absurd h (by simp))
  rw [impact_result_eq _ _ hE hno] at h
  exact h _ rfl

theorem pyInt_congr (x y : ℝ) (h : x = y) : pyInt x = pyInt y := by rw [h]

/-- C6: the impact-zone list contains exactly one seismic zone (radius
2 blast_radius, intensity min(10, seismic_magnitude)), one thermal zone
(radius thermal_radius, intensity 8), one blast zone (radius blast_radius,
intensity 10), and a tsunami zone (radius tsunami_height times 1000,
intensity min(10, tsunami_height)) exactly when the terrain is ocean and
the tsunami height exceeds 1 m; every zone has
affected_population = int(radius_km * population_density). -/
theorem C6_impact_zones (loc : ImpactLocation) (ir : ImpactResultData) :
    ((calculate_impact_zones loc ir).filter (fun z => z.zone_type = "seismic") =
      [{ zone_type := "seismic", radius := ir.blast_radius * 2,
         intensity := min 10 ir.seismic_magnitude,
         affected_population :=
           pyInt (ir.blast_radius * 2 / 1000 * loc.population_density) }]) ∧
    ((calculate_impact_zones loc ir).filter (fun z => z.zone_type = "thermal") =
      [{ zone_type := "thermal", radius := ir.thermal_radius, intensity := 8.0,
         affected_population :=
           pyInt (ir.thermal_radius / 1000 * loc.population_density) }]) ∧
    ((calculate_impact_zones loc ir).filter (fun z => z.zone_type = "blast") =
      [{ zone_type := "blast", radius := ir.blast_radius, intensity := 10.0,
         affected_population :=
           pyInt (ir.blast_radius / 1000 * loc.population_density) }]) ∧
    ((calculate_impact_zones loc ir).filter (fun z => z.zone_type = "tsunami") =
      if loc.terrain_type = TerrainType.ocean ∧ ir.tsunami_height > 1 then
        [{ zone_type := "tsunami", radius := ir.tsunami_height * 1000,
           intensity := min 10 ir.tsunami_height,
           affected_population :=
             pyInt (ir.tsunami_height * 1000 / 1000 * loc.population_density) }]
      else []) ∧
    ∀ z ∈ calculate_impact_zones loc ir,
      z.affected_population = pyInt (z.radius / 1000 * loc.population_density) := by
  have hs : pyInt (ir.blast_radius * 2 * 0.001 * loc.population_density) =
      pyInt (ir.blast_radius * 2 / 1000 * loc.population_density) :=
    pyInt_congr _ _ (by ring)
  have hth : pyInt (ir.thermal_radius * 0.001 * loc.population_density) =
      pyInt (ir.thermal_radius / 1000 * loc.population_density) :=
    pyInt_congr _ _ (by ring)
  have hbl : pyInt (ir.blast_radius * 0.001 * loc.population_density) =
      pyInt (ir.blast_radius / 1000 * loc.population_density) :=
    pyInt_congr _ _ (by ring)
  have hts : pyInt (ir.tsunami_height * 1000 * 0.001 * loc.population_density) =
      pyInt (ir.tsunami_height * 1000 / 1000 * loc.population_density) :=
    pyInt_congr _ _ (by ring)
  by_cases hoc : loc.terrain_type = TerrainType.ocean ∧ ir.tsunami_height > 1
  · refine ⟨?_, ?_, ?_, ?_, ?_⟩
    · simp only [calculate_impact_zones, if_pos hoc]
      simp [hs]
    · simp only [calculate_impact_zones, if_pos hoc]
      simp [hth]
    · simp only [calculate_impact_zones, if_pos hoc]
      simp [hbl]
    · simp only [calculate_impact_zones, if_pos hoc]
      simp [hts]
    · intro z hz
      simp only [calculate_impact_zones, if_pos hoc] at hz
      simp only [List.cons_append, List.nil_append, List.mem_cons,
        List.not_mem_nil, or_false] at hz
      rcases hz with rfl | rfl | rfl | rfl
      · exact hts
      · exact hs
      · exact hth
      · exact hbl
  · refine ⟨?_, ?_, ?_, ?_, ?_⟩
    · simp only [calculate_impact_zones, if_neg hoc]
      simp [hs]
    · simp only [calculate_impact_zones, if_neg hoc]
      simp [hth]
    · simp only [calculate_impact_zones, if_neg hoc]
      simp [hbl]
    · simp only [calculate_impact_zones, if_neg hoc]
      simp
    · intro z hz
      simp only [calculate_impact_zones, if_neg hoc] at hz
      simp only [List.nil_append, List.mem_cons, List.not_mem_nil, or_false] at hz
      rcases hz with rfl | rfl | rfl
      · exact hs
      · exact hth
      · exact hbl

/-- C7: the enhancer multiplies injuries by 1 + min(1, density/20000),
multiplies casualties by 0.9 exactly when the terrain is urban, multiplies
displacement by 1.25 exactly when the energy exceeds 100 Mt (each result
truncated to an integer), and recomputes the total economic cost from the
adjusted human counts plus the original infrastructure cost and the
original environmental score times 1e9. -/
theorem C7_enhancer (e : ℝ) (t : TerrainType) (pd : ℝ) (d : DamageData)
    (hc : 0 ≤ d.estimated_casualties) :
    enhance e t pd d =
      { d with
          injured_count :=
            pyInt ((d.injured_count : ℝ) * (1.0 + min 1.0 (pd / 20000.0)))
          estimated_casualties :=
            if t = TerrainType.urban then pyInt ((d.estimated_casualties : ℝ) * 0.9)
            else d.estimated_casualties
          displaced_count :=
            if e > 100 then pyInt ((d.displaced_count : ℝ) * 1.25)
            else d.displaced_count
          total_economic_cost :=
            (((if t = TerrainType.urban then pyInt ((d.estimated_casualties : ℝ) * 0.9)
                else d.estimated_casualties) * 1000000 +
              pyInt ((d.injured_count : ℝ) * (1.0 + min 1.0 (pd / 20000.0))) * 100000 +
              (if e > 100 then pyInt ((d.displaced_count : ℝ) * 1.25)
                else d.displaced_count) * 50000 : ℤ) : ℝ) +
            (d.infrastructure_damage_cost : ℝ) +
            d.environmental_impact_score * 1e9 } := by
  have hcR : (0:ℝ) ≤ (d.estimated_casualties : ℝ) := by exact_mod_cast hc
  have hmax : max 0 (pyInt ((d.estimated_casualties : ℝ) * 0.9)) =
      pyInt ((d.estimated_casualties : ℝ) * 0.9) :=
    max_eq_right (pyInt_nonneg _ (by nlinarith))
  simp only [enhance, hmax]

/-- The base damage record used by the enhancer witness. -/
def enhanceWitnessDamage : DamageData :=
  ⟨100, 300, 1000, 5000000, 10, 20, 2, 1, 1, 1, 1, 99, 3, 0, 0, 0, 0, 0⟩

/-- Witness for C7_enhancer on a concrete urban, high-energy scenario. -/
theorem C7_enhancer_witness :
    enhance 200 TerrainType.urban 30000 enhanceWitnessDamage =
      { enhanceWitnessDamage with
          injured_count :=
            pyInt ((enhanceWitnessDamage.injured_count : ℝ) *
              (1.0 + min 1.0 (30000 / 20000.0)))
          estimated_casualties :=
            if TerrainType.urban = TerrainType.urban then
              pyInt ((enhanceWitnessDamage.estimated_casualties : ℝ) * 0.9)
            else enhanceWitnessDamage.estimated_casualties
          displaced_count :=
            if (200:ℝ) > 100 then
              pyInt ((enhanceWitnessDamage.displaced_count : ℝ) * 1.25)
            else enhanceWitnessDamage.displaced_count
          total_economic_cost :=
            (((if TerrainType.urban = TerrainType.urban then
                pyInt ((enhanceWitnessDamage.estimated_casualties : ℝ) * 0.9)
                else enhanceWitnessDamage.estimated_casualties) * 1000000 +
              pyInt ((enhanceWitnessDamage.injured_count : ℝ) *
                (1.0 + min 1.0 (30000 / 20000.0))) * 100000 +
              (if (200:ℝ) > 100 then
                pyInt ((enhanceWitnessDamage.displaced_count : ℝ) * 1.25)
                else enhanceWitnessDamage.displaced_count) * 50000 : ℤ) : ℝ) +
            (enhanceWitnessDamage.infrastructure_damage_cost : ℝ) +
            enhanceWitnessDamage.environmental_impact_score * 1e9 } :=
  C7_enhancer 200 TerrainType.urban 30000 enhanceWitnessDamage
    (by norm_num [enhanceWitnessDamage])

/-- C8: the kinetic energy property of the asteroid model is exactly
0.5 mass velocity^2 Joules, the megaton value divides that by 4.184e15
exactly, and the impact calculator computes the identical expression;
all three are total functions. -/
theorem C8_kinetic_energy (a : Asteroid) :
    a.kinetic_energy = 0.5 * a.mass * a.velocity ^ 2 ∧
    a.kinetic_energy_megatons = (0.5 * a.mass * a.velocity ^ 2) / 4.184e15 ∧
    calculate_kinetic_energy a = a.kinetic_energy :=
  ⟨rfl, rfl, rfl⟩

/-- C9: assess_damage never reads its asteroid argument: any two asteroids
give identical damage assessments for the same location and impact result. -/
theorem C9_asteroid_independent (a1 a2 : Asteroid) (loc : ImpactLocation)
    (ir : ImpactResultData) :
    assess_damage a1 loc ir = assess_damage a2 loc ir := rfl

end

end Meteor
